import Mathlib

/-!
Verification of the numerology / resource-grid engine of `frame_structure.py`
(5G NR frame-structure visualizer).  The Python helpers and the inline
computation blocks are embedded as executable Lean definitions: numpy grids
become functions on indices, the slot-pattern while-loop becomes a fuel
recursion, Python floats become exact rationals, and fallible operations
(dict lookup raising KeyError, negative-index IndexError) become `Option`.
-/

/-- Classification of one resource element of the grid
(`grid_allocation` values 0,1,2,3 in the source). -/
inductive Cls
  | Empty
  | PDSCH
  | PDCCH
  | DMRS
deriving DecidableEq

/-- TDD slot labels appended to `slot_pattern` in the source. -/
inductive Slot
  | D
  | U
  | X
  | F
deriving DecidableEq

/-- The two DMRS configuration types of `create_dmrs_pattern`. -/
inductive DmrsType
  | Type1
  | Type2
deriving DecidableEq

/-- Result record of `get_slot_params`.  The slot duration (a Python float
`1.0 / 2**mu`, always an exact dyadic value) is embedded as a rational. -/
structure SlotParams where
  mu : Nat
  slot_duration_ms : ℚ
  slots_per_subframe : Nat
  slots_per_frame : Nat
  symbols_per_slot : Nat
deriving DecidableEq

/-- The dict `mu_map = {15: 0, 30: 1, 60: 2, 120: 3, 240: 4}`; lookup of a
missing key raises `KeyError` in Python, embedded as `none`. -/
def mu_map (scs_khz : Nat) : Option Nat :=
  if scs_khz = 15 then some 0
  else if scs_khz = 30 then some 1
  else if scs_khz = 60 then some 2
  else if scs_khz = 120 then some 3
  else if scs_khz = 240 then some 4
  else none

/-- `get_slot_params(scs_khz)` from the source: slot parameters derived from
the subcarrier spacing. -/
def get_slot_params (scs_khz : Nat) : Option SlotParams :=
  (mu_map scs_khz).map (fun mu =>
    { mu := mu
      slot_duration_ms := 1 / (2 ^ mu : ℚ)
      slots_per_subframe := 2 ^ mu
      slots_per_frame := 10 * 2 ^ mu
      symbols_per_slot := 14 })

/-- Python indexing `grid[i]` on an array with `n` rows: a non-negative index
is used as is, a negative index `i` with `-n ≤ i` addresses row `n + i`, and
anything below `-n` raises `IndexError` (embedded as `none`). -/
def pyRow (n : Nat) (i : Int) : Option Nat :=
  if 0 ≤ i then some i.toNat
  else if 0 ≤ (n : Int) + i then some ((n : Int) + i).toNat
  else none

/-- The row-marking loop of `create_dmrs_pattern`: for each configured symbol
index, the guard `if sym_idx < num_symbols` either admits the index (which is
then resolved by Python indexing, possibly negative) or silently skips it.
Returns the list of marked rows, or `none` when indexing raises. -/
def dmrsMarkRows (num_symbols : Nat) : List Int → Option (List Nat)
  | [] => some []
  | i :: rest =>
    if i < (num_symbols : Int) then
      match pyRow num_symbols i with
      | some r => (dmrsMarkRows num_symbols rest).map (fun rs => r :: rs)
      | none => none
    else dmrsMarkRows num_symbols rest

/-- The group starts of the Type2 inner loop `range(0, num_rbs * 12, 6)`. -/
def type2GroupStarts (n : Nat) : List Nat :=
  (List.range ((n + 5) / 6)).map (fun k => k * 6)

/-- Column membership for the Type2 branch: the loop marks
`grid[sym, sc_idx:sc_idx+2]` for every group start `sc_idx` passing the guard
`sc_idx < num_rbs * 12 - 1`; the slice clips at the row width. -/
def type2ColMarked (n c : Nat) : Bool :=
  (type2GroupStarts n).any (fun g =>
    decide (g < n - 1) && (c == g || c == g + 1) && decide (c < n))

/-- Column membership of the DMRS pattern per type: Type1 marks every other
subcarrier (`grid[sym_idx, ::2] = 1`), Type2 marks per `type2ColMarked`. -/
def dmrsColMarked (t : DmrsType) (n c : Nat) : Bool :=
  match t with
  | DmrsType.Type1 => c % 2 == 0
  | DmrsType.Type2 => type2ColMarked n c

/-- `create_dmrs_pattern(num_rbs, num_symbols, dmrs_type, dmrs_positions)`:
the boolean occupancy grid, as a function of (symbol row, subcarrier column);
`none` when a position raises `IndexError`. -/
def create_dmrs_pattern (num_rbs num_symbols : Nat) (t : DmrsType)
    (positions : List Int) : Option (Nat → Nat → Bool) :=
  (dmrsMarkRows num_symbols positions).map (fun rows r c =>
    rows.contains r && dmrsColMarked t (num_rbs * 12) c)

/-- `create_pdcch_region(num_rbs, num_symbols, coreset_duration)`: marks the
first `min coreset_duration num_symbols` symbol rows across all subcarriers. -/
def create_pdcch_region (num_rbs num_symbols coreset_duration : Nat) :
    Nat → Nat → Bool :=
  fun r _ => decide (r < min coreset_duration num_symbols)

/-- The layer toggles and parameters of the Resource Grid block. -/
structure GridOptions where
  show_pdsch : Bool
  show_pdcch : Bool
  show_dmrs : Bool
  coreset_duration : Nat
  dmrs_type : DmrsType
  dmrs_symbols : List Int

/-- The `grid_allocation` construction of the Resource Grid block: start all
zero (Empty); if PDSCH shown, fill everything with 1; if PDCCH shown,
overwrite the CORESET region with 2; if DMRS shown, overwrite the DMRS
pattern with 3. -/
def grid_allocation (num_rbs num_symbols : Nat) (o : GridOptions) :
    Option (Nat → Nat → Cls) :=
  let base : Nat → Nat → Cls := fun _ _ => Cls.Empty
  let g1 : Nat → Nat → Cls :=
    if o.show_pdsch then fun _ _ => Cls.PDSCH else base
  let g2 : Nat → Nat → Cls :=
    if o.show_pdcch then
      fun r c =>
        if create_pdcch_region num_rbs num_symbols o.coreset_duration r c then
          Cls.PDCCH
        else g1 r c
    else g1
  if o.show_dmrs then
    (create_dmrs_pattern num_rbs num_symbols o.dmrs_type o.dmrs_symbols).map
      (fun dmrs r c => if dmrs r c then Cls.DMRS else g2 r c)
  else some g2

/-- The index set of the grid: symbol rows times subcarrier columns. -/
def gridCells (num_rbs num_symbols : Nat) : Finset (Nat × Nat) :=
  Finset.range num_symbols ×ˢ Finset.range (num_rbs * 12)

/-- Cell count of one classification, as in the `np.sum(grid_allocation == k)`
statistics of the source. -/
def countCls (num_rbs num_symbols : Nat) (g : Nat → Nat → Cls) (x : Cls) : Nat :=
  ((gridCells num_rbs num_symbols).filter (fun p => g p.1 p.2 = x)).card

/-- The four per-classification cell counts reported by the statistics block,
in the order (Empty, PDSCH, PDCCH, DMRS). -/
def gridStats (num_rbs num_symbols : Nat) (o : GridOptions) :
    Option (Nat × Nat × Nat × Nat) :=
  (grid_allocation num_rbs num_symbols o).map (fun g =>
    (countCls num_rbs num_symbols g Cls.Empty,
     countCls num_rbs num_symbols g Cls.PDSCH,
     countCls num_rbs num_symbols g Cls.PDCCH,
     countCls num_rbs num_symbols g Cls.DMRS))

/-- One cell of the built grid, through the `Option` of the builder. -/
def gridCellAt (num_rbs num_symbols : Nat) (o : GridOptions) (r c : Nat) :
    Option Cls :=
  (grid_allocation num_rbs num_symbols o).map (fun g => g r c)

/-- One cell of the DMRS mask, through the `Option` of the generator. -/
def dmrsCellAt (num_rbs num_symbols : Nat) (t : DmrsType) (positions : List Int)
    (r c : Nat) : Option Bool :=
  (create_dmrs_pattern num_rbs num_symbols t positions).map (fun m => m r c)

/-- Number of true cells of a mask over the grid index set. -/
def maskCount (num_rbs num_symbols : Nat) (m : Nat → Nat → Bool) : Nat :=
  ((gridCells num_rbs num_symbols).filter (fun p => m p.1 p.2 = true)).card

/-- Number of true cells of the DMRS mask, through the generator's `Option`. -/
def dmrsMaskCount (num_rbs num_symbols : Nat) (t : DmrsType)
    (positions : List Int) : Option Nat :=
  (create_dmrs_pattern num_rbs num_symbols t positions).map
    (maskCount num_rbs num_symbols)

/-- Python `int()` applied to a float value, embedded on rationals:
truncation toward zero. -/
def pyInt (q : ℚ) : Int :=
  if 0 ≤ q then ⌊q⌋ else -⌊-q⌋

/-- `slots_in_period = int(tdd_periodicity_ms / slot_duration_ms)`. -/
def slots_in_period (periodicity_ms slot_duration_ms : ℚ) : Int :=
  pyInt (periodicity_ms / slot_duration_ms)

/-- The `while len(slot_pattern) < slots_in_period` padding loop, with the
number of missing slots as fuel: each iteration appends one flexible slot. -/
def padFAux : Nat → List Slot → List Slot
  | 0, pat => pat
  | k + 1, pat => padFAux k (pat ++ [Slot.F])

/-- Padding of the slot pattern with F up to the period length. -/
def padF (pat : List Slot) (n : Nat) : List Slot :=
  padFAux (n - pat.length) pat

/-- The `slot_pattern` construction of the TDD Configuration block: append
`num_dl_slots` times D, one X when any partial DL or UL symbols are
configured, `num_ul_slots` times U, then pad with F. -/
def build_slot_pattern (num_dl_slots num_dl_symbols num_ul_slots
    num_ul_symbols slots : Nat) : List Slot :=
  let p1 := List.replicate num_dl_slots Slot.D
  let p2 := if 0 < num_dl_symbols ∨ 0 < num_ul_symbols then p1 ++ [Slot.X] else p1
  let p3 := p2 ++ List.replicate num_ul_slots Slot.U
  padF p3 slots

/-- `guard = 14 - num_dl_symbols - num_ul_symbols` (Python int, may be
negative), the guard metadata of the partial slot. -/
def tdd_guard (num_dl_symbols num_ul_symbols : Nat) : Int :=
  14 - (num_dl_symbols : Int) - (num_ul_symbols : Int)

/-- The full TDD synthesis: period length from the truncated quotient, then
the slot-pattern construction. -/
def synthesizeTdd (periodicity_ms slot_duration_ms : ℚ)
    (num_dl_slots num_dl_symbols num_ul_slots num_ul_symbols : Nat) : List Slot :=
  build_slot_pattern num_dl_slots num_dl_symbols num_ul_slots num_ul_symbols
    (slots_in_period periodicity_ms slot_duration_ms).toNat

/-- Python slicing `l[:k]`: a non-negative stop keeps the first k elements
(clipped at the length); a negative stop addresses position `len + k` from
the start, that is, it drops the last |k| elements (all of them when
`len + k ≤ 0`). -/
def pySliceTo (l : List Slot) (k : Int) : List Slot :=
  if 0 ≤ k then l.take k.toNat
  else l.take ((l.length : Int) + k).toNat

/-- The displayed pattern string `slot_pattern[:slots_in_period]`. -/
def tdd_pattern_str (periodicity_ms slot_duration_ms : ℚ)
    (num_dl_slots num_dl_symbols num_ul_slots num_ul_symbols : Nat) : List Slot :=
  pySliceTo
    (synthesizeTdd periodicity_ms slot_duration_ms num_dl_slots num_dl_symbols
      num_ul_slots num_ul_symbols)
    (slots_in_period periodicity_ms slot_duration_ms)

/-- `total_dl_symbols = num_dl_slots * 14 + num_dl_symbols`. -/
def total_dl_symbols (num_dl_slots num_dl_symbols : Nat) : Nat :=
  num_dl_slots * 14 + num_dl_symbols

/-- `total_ul_symbols = num_ul_slots * 14 + num_ul_symbols`. -/
def total_ul_symbols (num_ul_slots num_ul_symbols : Nat) : Nat :=
  num_ul_slots * 14 + num_ul_symbols

/-- `total_symbols = slots_in_period * 14`. -/
def total_symbols (slots : Nat) : Nat := slots * 14

/-- `dl_pct = 100 * total_dl_symbols / total_symbols` (float division,
embedded exactly on rationals). -/
def dl_pct (num_dl_slots num_dl_symbols slots : Nat) : ℚ :=
  100 * (total_dl_symbols num_dl_slots num_dl_symbols : ℚ) /
    (total_symbols slots : ℚ)

/-- `ul_pct = 100 * total_ul_symbols / total_symbols`. -/
def ul_pct (num_ul_slots num_ul_symbols slots : Nat) : ℚ :=
  100 * (total_ul_symbols num_ul_slots num_ul_symbols : ℚ) /
    (total_symbols slots : ℚ)

/-- `guard_pct = 100 - dl_pct - ul_pct`. -/
def guard_pct (num_dl_slots num_dl_symbols num_ul_slots num_ul_symbols
    slots : Nat) : ℚ :=
  100 - dl_pct num_dl_slots num_dl_symbols slots -
    ul_pct num_ul_slots num_ul_symbols slots

/-- Modelled from the spec's words (for comparison with the code's reported
percentages): DL symbols of a pattern, counting 14 per full D slot and the
explicit DL split of the X slot; F and U slots contribute nothing. -/
def patternDlSymbols (pat : List Slot) (num_dl_symbols : Nat) : Nat :=
  (pat.map (fun s =>
    match s with
    | Slot.D => 14
    | Slot.X => num_dl_symbols
    | _ => 0)).sum

/-- Modelled from the spec's words: UL symbols of a pattern, counting 14 per
full U slot and the explicit UL split of the X slot. -/
def patternUlSymbols (pat : List Slot) (num_ul_symbols : Nat) : Nat :=
  (pat.map (fun s =>
    match s with
    | Slot.U => 14
    | Slot.X => num_ul_symbols
    | _ => 0)).sum

/-- Modelled from the spec's words: guard symbols of a pattern — only the X
slot contributes its explicit guard split; F slots contribute nothing. -/
def patternGuardSymbols (pat : List Slot) (num_dl_symbols num_ul_symbols : Nat) :
    Int :=
  (pat.map (fun s =>
    match s with
    | Slot.X => (14 : Int) - (num_dl_symbols : Int) - (num_ul_symbols : Int)
    | _ => 0)).sum

/-- Spec-side DL percentage of a pattern. -/
def spec_dl_pct (pat : List Slot) (num_dl_symbols slots : Nat) : ℚ :=
  100 * (patternDlSymbols pat num_dl_symbols : ℚ) / (total_symbols slots : ℚ)

/-- Spec-side UL percentage of a pattern. -/
def spec_ul_pct (pat : List Slot) (num_ul_symbols slots : Nat) : ℚ :=
  100 * (patternUlSymbols pat num_ul_symbols : ℚ) / (total_symbols slots : ℚ)

/-- Spec-side guard percentage of a pattern. -/
def spec_guard_pct (pat : List Slot) (num_dl_symbols num_ul_symbols
    slots : Nat) : ℚ :=
  100 * ((patternGuardSymbols pat num_dl_symbols num_ul_symbols : Int) : ℚ) /
    (total_symbols slots : ℚ)

/-! ## Support lemmas -/

/-- Unfolding of the padding fuel loop into a replicate append. -/
theorem padFAux_spec (k : Nat) : ∀ pat, padFAux k pat = pat ++ List.replicate k Slot.F := by
  induction k with
  | zero => intro pat; simp [padFAux]
  | succ n ih =>
    intro pat
    rw [padFAux, ih]
    simp [List.replicate_succ, List.append_assoc]

/-- Padding appends exactly the missing number of F slots. -/
theorem padF_spec (pat : List Slot) (n : Nat) :
    padF pat n = pat ++ List.replicate (n - pat.length) Slot.F := by
  unfold padF
  exact padFAux_spec _ _

/-- Length of the padded pattern. -/
theorem padF_length (pat : List Slot) (n : Nat) :
    (padF pat n).length = pat.length + (n - pat.length) := by
  rw [padF_spec]
  simp

/-- Every element of a finite index set carries exactly one of the four
classifications, so the four per-classification counts partition the set. -/
theorem cls_partition {α : Type} [DecidableEq α] (s : Finset α) (f : α → Cls) :
    (s.filter (fun a => f a = Cls.Empty)).card
      + (s.filter (fun a => f a = Cls.PDSCH)).card
      + (s.filter (fun a => f a = Cls.PDCCH)).card
      + (s.filter (fun a => f a = Cls.DMRS)).card = s.card := by
  induction s using Finset.induction_on with
  | empty => simp
  | @insert a s ha ih =>
    rw [Finset.filter_insert, Finset.filter_insert, Finset.filter_insert,
      Finset.filter_insert]
    have h1 : a ∉ s.filter (fun x => f x = Cls.Empty) :=
      fun h => ha (Finset.mem_filter.mp h).1
    have h2 : a ∉ s.filter (fun x => f x = Cls.PDSCH) :=
      fun h => ha (Finset.mem_filter.mp h).1
    have h3 : a ∉ s.filter (fun x => f x = Cls.PDCCH) :=
      fun h => ha (Finset.mem_filter.mp h).1
    have h4 : a ∉ s.filter (fun x => f x = Cls.DMRS) :=
      fun h => ha (Finset.mem_filter.mp h).1
    cases hfa : f a <;>
      simp [hfa, Finset.card_insert_of_not_mem, h1, h2, h3, h4,
        Finset.card_insert_of_not_mem ha] <;>
      omega

/-- The four counts of the statistics block sum to the grid size. -/
theorem countCls_partition (num_rbs num_symbols : Nat) (g : Nat → Nat → Cls) :
    countCls num_rbs num_symbols g Cls.Empty
      + countCls num_rbs num_symbols g Cls.PDSCH
      + countCls num_rbs num_symbols g Cls.PDCCH
      + countCls num_rbs num_symbols g Cls.DMRS = num_rbs * 12 * num_symbols := by
  have hp := cls_partition (gridCells num_rbs num_symbols)
    (fun p : Nat × Nat => g p.1 p.2)
  have hc : (gridCells num_rbs num_symbols).card = num_rbs * 12 * num_symbols := by
    simp [gridCells]
    ring
  unfold countCls
  rw [hp, hc]

/-! ## Claim theorems -/

/-- C1 (counterexample): at periodicityMs = 0.625 and slotDurationMs = 0.5 the
quotient 1.25 is not a positive integer, yet the synthesizer does not fail: it
produces a non-empty pattern whose displayed form is the single slot D.  This
refutes the claim that such inputs fail with InvalidPeriod and produce no
pattern. -/
theorem c1_counterexample :
    (5 : ℚ) / 8 / (1 / 2) = 5 / 4
      ∧ ((⌊(5 : ℚ) / 8 / (1 / 2)⌋ : ℤ) : ℚ) ≠ (5 : ℚ) / 8 / (1 / 2)
      ∧ tdd_pattern_str (5 / 8) (1 / 2) 7 10 2 2 = [Slot.D]
      ∧ synthesizeTdd (5 / 8) (1 / 2) 7 10 2 2 ≠ [] := by
  have hsl : slots_in_period (5 / 8) (1 / 2) = 1 := by
    unfold slots_in_period pyInt
    norm_num
  refine ⟨by norm_num, by norm_num, ?_, ?_⟩
  · unfold tdd_pattern_str synthesizeTdd
    rw [hsl]
    decide
  · unfold synthesizeTdd
    rw [hsl]
    decide

/-- C1 (amended): the synthesizer never fails on the period: it truncates the
quotient with Python int(), and whenever that truncated slot count is
non-negative (in particular for every non-integral positive quotient) it
produces a pattern whose displayed length is exactly that slot count. -/
theorem c1_truncated_display (periodicity_ms slot_duration_ms : ℚ)
    (num_dl_slots num_dl_symbols num_ul_slots num_ul_symbols : Nat)
    (h : 0 ≤ slots_in_period periodicity_ms slot_duration_ms) :
    (tdd_pattern_str periodicity_ms slot_duration_ms num_dl_slots
        num_dl_symbols num_ul_slots num_ul_symbols).length
      = (slots_in_period periodicity_ms slot_duration_ms).toNat := by
  unfold tdd_pattern_str pySliceTo
  rw [if_pos h]
  unfold synthesizeTdd build_slot_pattern
  by_cases hc : 0 < num_dl_symbols ∨ 0 < num_ul_symbols <;>
    simp [hc, List.length_take, padF_length] <;>
    omega

/-- C1 witness: the amended theorem applied at the 0.625 ms / 0.5 ms input,
whose truncated quotient is the single displayed slot. -/
theorem c1_witness : (tdd_pattern_str (5 / 8) (1 / 2) 7 10 2 2).length = 1 := by
  have hsl : slots_in_period (5 / 8) (1 / 2) = 1 := by
    unfold slots_in_period pyInt
    norm_num
  have h := c1_truncated_display (5 / 8) (1 / 2) 7 10 2 2 (by rw [hsl]; decide)
  rw [hsl] at h
  exact h

/-- C2: with an integral positive slot count and dl+ul symbols at most 14,
the synthesized pattern is exactly dlSlots times D, one X iff any partial
symbols are configured (with guard metadata 14 - dl - ul, non-negative),
ulSlots times U, then F padding up to the slot count; in particular the
(5 ms, 0.5 ms, 7, 10, 2, 2) example gives 7 D, one X with guard 2, 2 U and
no padding in a 10-slot period. -/
theorem c2_tdd_pattern_structure (periodicity_ms slot_duration_ms : ℚ)
    (num_dl_slots num_dl_symbols num_ul_slots num_ul_symbols : Nat)
    (hd : 0 < slot_duration_ms)
    (hint : ∃ n : ℕ, 1 ≤ n ∧ periodicity_ms / slot_duration_ms = n)
    (hsum : num_dl_symbols + num_ul_symbols ≤ 14) :
    synthesizeTdd periodicity_ms slot_duration_ms num_dl_slots num_dl_symbols
        num_ul_slots num_ul_symbols
      = List.replicate num_dl_slots Slot.D
        ++ (if 0 < num_dl_symbols ∨ 0 < num_ul_symbols then [Slot.X] else [])
        ++ List.replicate num_ul_slots Slot.U
        ++ List.replicate
            ((slots_in_period periodicity_ms slot_duration_ms).toNat
              - (num_dl_slots
                  + (if 0 < num_dl_symbols ∨ 0 < num_ul_symbols then 1 else 0)
                  + num_ul_slots)) Slot.F
      ∧ tdd_guard num_dl_symbols num_ul_symbols
          = 14 - (num_dl_symbols : Int) - (num_ul_symbols : Int)
      ∧ 0 ≤ tdd_guard num_dl_symbols num_ul_symbols
      ∧ synthesizeTdd 5 (1 / 2) 7 10 2 2
          = List.replicate 7 Slot.D ++ [Slot.X] ++ List.replicate 2 Slot.U
      ∧ (slots_in_period 5 (1 / 2)).toNat = 10
      ∧ tdd_guard 10 2 = 2 := by
  have hsl : slots_in_period 5 (1 / 2) = 10 := by
    unfold slots_in_period pyInt
    norm_num
  refine ⟨?_, rfl, ?_, ?_, ?_, by decide⟩
  · unfold synthesizeTdd build_slot_pattern
    rw [padF_spec]
    by_cases hc : 0 < num_dl_symbols ∨ 0 < num_ul_symbols <;>
      simp [hc, List.append_assoc] <;>
      congr 1 <;>
      omega
  · unfold tdd_guard
    omega
  · unfold synthesizeTdd
    rw [hsl]
    decide
  · rw [hsl]
    decide

/-- C2 witness: the theorem applied at the concrete spec example. -/
theorem c2_witness :
    synthesizeTdd 5 (1 / 2) 7 10 2 2
        = [Slot.D, Slot.D, Slot.D, Slot.D, Slot.D, Slot.D, Slot.D, Slot.X,
           Slot.U, Slot.U]
      ∧ tdd_guard 10 2 = 2 := by
  have h := c2_tdd_pattern_structure 5 (1 / 2) 7 10 2 2 (by norm_num)
    ⟨10, by norm_num⟩ (by norm_num)
  refine ⟨?_, h.2.2.2.2.2⟩
  rw [h.2.2.2.1]
  decide

/-- C3 (counterexample): with 13 DL and 13 UL partial symbols (sum 26 > 14)
the synthesizer does not fail: it emits the X slot with negative guard -12
and produces the full pattern.  This refutes the claim that dl+ul > 14 fails
with InvalidPartialSlot rather than producing a pattern. -/
theorem c3_counterexample :
    14 < 13 + 13
      ∧ tdd_guard 13 13 = -12
      ∧ synthesizeTdd 5 (1 / 2) 7 13 2 13
          = [Slot.D, Slot.D, Slot.D, Slot.D, Slot.D, Slot.D, Slot.D, Slot.X,
             Slot.U, Slot.U] := by
  have hsl : slots_in_period 5 (1 / 2) = 10 := by
    unfold slots_in_period pyInt
    norm_num
  refine ⟨by norm_num, by decide, ?_⟩
  unfold synthesizeTdd
  rw [hsl]
  decide

/-- C3 (amended): when dl+ul symbols exceed 14, the guard metadata is
computed as a negative number and the synthesizer still builds the pattern,
X slot included; no validation happens. -/
theorem c3_negative_guard_still_builds (periodicity_ms slot_duration_ms : ℚ)
    (num_dl_slots num_dl_symbols num_ul_slots num_ul_symbols : Nat)
    (h : 14 < num_dl_symbols + num_ul_symbols) :
    tdd_guard num_dl_symbols num_ul_symbols < 0
      ∧ Slot.X ∈ synthesizeTdd periodicity_ms slot_duration_ms num_dl_slots
          num_dl_symbols num_ul_slots num_ul_symbols := by
  constructor
  · unfold tdd_guard
    omega
  · have hc : 0 < num_dl_symbols ∨ 0 < num_ul_symbols := by omega
    unfold synthesizeTdd build_slot_pattern
    rw [padF_spec]
    simp [hc]

/-- C3 witness: the amended theorem applied at dl = ul = 13. -/
theorem c3_witness :
    tdd_guard 13 13 < 0 ∧ Slot.X ∈ synthesizeTdd 5 (1 / 2) 7 13 2 13 :=
  c3_negative_guard_still_builds 5 (1 / 2) 7 13 2 13 (by norm_num)

/-- C4: for every supported subcarrier spacing the resolver returns the mu of
the fixed map together with slot duration 1/2^mu ms, 2^mu slots per subframe,
10*2^mu slots per frame and 14 symbols per slot, and slot duration times
slots per frame is always the 10 ms frame. -/
theorem c4_numerology_resolver (scs_khz mu : Nat)
    (h : mu_map scs_khz = some mu) :
    get_slot_params scs_khz
        = some { mu := mu, slot_duration_ms := 1 / (2 ^ mu : ℚ),
                 slots_per_subframe := 2 ^ mu, slots_per_frame := 10 * 2 ^ mu,
                 symbols_per_slot := 14 }
      ∧ (1 / (2 ^ mu : ℚ)) * ((10 * 2 ^ mu : Nat) : ℚ) = 10
      ∧ mu ≤ 4 := by
  refine ⟨by simp [get_slot_params, h], ?_, ?_⟩
  · have hpow : (2 ^ mu : ℚ) ≠ 0 := by positivity
    push_cast
    field_simp
  · unfold mu_map at h
    split_ifs at h <;> simp only [Option.some.injEq] at h <;> omega

/-- C4 witness: the resolver applied at 30 kHz (mu = 1). -/
theorem c4_witness :
    get_slot_params 30
        = some { mu := 1, slot_duration_ms := 1 / (2 ^ 1 : ℚ),
                 slots_per_subframe := 2 ^ 1, slots_per_frame := 10 * 2 ^ 1,
                 symbols_per_slot := 14 }
      ∧ (1 / (2 ^ 1 : ℚ)) * ((10 * 2 ^ 1 : Nat) : ℚ) = 10 := by
  have h := c4_numerology_resolver 30 1 (by decide)
  exact ⟨h.1, h.2.1⟩

/-- C7: for every subcarrier spacing outside the supported set the dict
lookup fails (Python KeyError, embedded as none) and no timing struct is
returned. -/
theorem c7_unsupported_scs_fails (scs_khz : Nat)
    (h : scs_khz ∉ ([15, 30, 60, 120, 240] : List Nat)) :
    get_slot_params scs_khz = none := by
  simp only [List.mem_cons, List.mem_singleton, not_or] at h
  obtain ⟨h1, h2, h3, h4, h5⟩ := h
  simp [get_slot_params, mu_map, h1, h2, h3, h4, h5]

/-- C7 witness: the resolver applied at the unsupported spacing 45 kHz. -/
theorem c7_witness : get_slot_params 45 = none :=
  c7_unsupported_scs_fails 45 (by decide)

/-- C5: in the built grid, a cell covered by the enabled DMRS pattern is
classified DMRS and never PDSCH or PDCCH, and a cell in the enabled CORESET
region that the DMRS pattern does not cover is classified PDCCH and never
PDSCH: the fixed precedence PDSCH < PDCCH < DMRS of the layered overwrites. -/
theorem c5_layer_precedence (num_rbs num_symbols : Nat) (o : GridOptions)
    (r c : Nat) :
    (o.show_dmrs = true →
      dmrsCellAt num_rbs num_symbols o.dmrs_type o.dmrs_symbols r c = some true →
      gridCellAt num_rbs num_symbols o r c = some Cls.DMRS
        ∧ gridCellAt num_rbs num_symbols o r c ≠ some Cls.PDSCH
        ∧ gridCellAt num_rbs num_symbols o r c ≠ some Cls.PDCCH)
    ∧ (o.show_pdcch = true →
      create_pdcch_region num_rbs num_symbols o.coreset_duration r c = true →
      (o.show_dmrs = true →
        dmrsCellAt num_rbs num_symbols o.dmrs_type o.dmrs_symbols r c = some false) →
      gridCellAt num_rbs num_symbols o r c = some Cls.PDCCH
        ∧ gridCellAt num_rbs num_symbols o r c ≠ some Cls.PDSCH) := by
  obtain ⟨sp, spc, sd, cd, dt, ds⟩ := o
  constructor
  · intro hsd hdm
    simp only at hsd
    subst hsd
    simp only [dmrsCellAt] at hdm
    rcases Option.map_eq_some'.mp hdm with ⟨m, hm, hv⟩
    simp [gridCellAt, grid_allocation, hm, hv]
  · intro hpc hpd hdmf
    simp only at hpc
    subst hpc
    cases sd with
    | false =>
      simp [gridCellAt, grid_allocation, hpd]
    | true =>
      have hdm := hdmf rfl
      simp only [dmrsCellAt] at hdm
      rcases Option.map_eq_some'.mp hdm with ⟨m, hm, hv⟩
      simp [gridCellAt, grid_allocation, hm, hv, hpd]

/-- C5 witness: with all layers enabled the DMRS-covered cell (2,0) is DMRS
and the CORESET cell (0,1) not covered by Type1 DMRS at symbol 0 is PDCCH. -/
theorem c5_witness :
    gridCellAt 1 14 ⟨true, true, true, 2, DmrsType.Type1, [2, 11]⟩ 2 0
        = some Cls.DMRS
      ∧ gridCellAt 1 14 ⟨true, true, true, 2, DmrsType.Type1, [2, 11]⟩ 0 1
        = some Cls.PDCCH := by
  refine ⟨((c5_layer_precedence 1 14
      ⟨true, true, true, 2, DmrsType.Type1, [2, 11]⟩ 2 0).1 rfl (by decide)).1,
    ((c5_layer_precedence 1 14
      ⟨true, true, true, 2, DmrsType.Type1, [2, 11]⟩ 0 1).2 rfl (by decide)
      (fun _ => by decide)).1⟩

/-- C6: for valid grid dimensions and any layer combination that builds, the
four per-classification counts of the statistics block sum exactly to
numRBs * 12 * numSymbols. -/
theorem c6_stats_total (num_rbs num_symbols : Nat) (o : GridOptions)
    (s : Nat × Nat × Nat × Nat)
    (h1 : 1 ≤ num_rbs) (h2 : 1 ≤ num_symbols) (h3 : num_symbols ≤ 14)
    (hs : gridStats num_rbs num_symbols o = some s) :
    s.1 + s.2.1 + s.2.2.1 + s.2.2.2 = num_rbs * 12 * num_symbols := by
  rcases Option.map_eq_some'.mp hs with ⟨g, hg, hv⟩
  subst hv
  exact countCls_partition num_rbs num_symbols g

/-- C6 witness: the statistics at a 1-RB, 2-symbol grid with all layers on. -/
theorem c6_witness :
    gridStats 1 2 ⟨true, true, true, 1, DmrsType.Type1, [0]⟩
        = some (0, 12, 6, 6)
      ∧ 0 + 12 + 6 + 6 = 1 * 12 * 2 := by
  refine ⟨by decide, ?_⟩
  exact c6_stats_total 1 2 ⟨true, true, true, 1, DmrsType.Type1, [0]⟩
    (0, 12, 6, 6) (by decide) (by decide) (by decide) (by decide)

/-- Characterization of the Type2 column loop: a column is marked iff it is
at offset 0 or 1 of its 6-subcarrier group and at least 2 subcarriers remain
from the group start (the guard sc_idx < width - 1). -/
theorem type2ColMarked_iff (n c : Nat) :
    type2ColMarked n c = true ↔ c % 6 < 2 ∧ 6 * (c / 6) + 2 ≤ n := by
  unfold type2ColMarked type2GroupStarts
  simp only [List.any_eq_true, List.mem_map, List.mem_range, Bool.and_eq_true,
    decide_eq_true_eq, Bool.or_eq_true, beq_iff_eq]
  constructor
  · rintro ⟨g, ⟨k, hk, rfl⟩, ⟨hg, hc⟩, hcn⟩
    omega
  · rintro ⟨h1, h2⟩
    refine ⟨6 * (c / 6), ⟨c / 6, by omega, by omega⟩, ⟨by omega, by omega⟩, by omega⟩

/-- The marked-rows loop at position set containing only symbol 2 marks
exactly row 2 whenever the grid has at least 3 symbol rows. -/
theorem dmrsMarkRows_two (n : Nat) (hn : 3 ≤ n) :
    dmrsMarkRows n [2] = some [2] := by
  have h2 : (2 : Int) < (n : Int) := by
    omega
  simp [dmrsMarkRows, h2, pyRow]

/-- C9: the Type2 DMRS mask with numRBs = 10 and symbol set containing only 2
has exactly 40 true cells, all in row 2 at offsets 0 and 1 of the 20
six-subcarrier groups of the 120 subcarriers; generally a final partial group
is marked only when at least 2 subcarriers remain. -/
theorem c9_type2_mask (n : Nat) (hn : 3 ≤ n) :
    dmrsMaskCount 10 n DmrsType.Type2 [2] = some 40
      ∧ (∀ r c, dmrsCellAt 10 n DmrsType.Type2 [2] r c = some true →
          r = 2 ∧ c % 6 < 2 ∧ c < 120)
      ∧ (∀ c, c < 120 → c % 6 < 2 →
          dmrsCellAt 10 n DmrsType.Type2 [2] 2 c = some true)
      ∧ (∀ m c, type2ColMarked m c = true ↔ c % 6 < 2 ∧ 6 * (c / 6) + 2 ≤ m) := by
  have hrows := dmrsMarkRows_two n hn
  have hm : create_dmrs_pattern 10 n DmrsType.Type2 [2]
      = some (fun r c => List.contains [2] r && dmrsColMarked DmrsType.Type2 (10 * 12) c) := by
    unfold create_dmrs_pattern
    rw [hrows]
    rfl
  refine ⟨?_, ?_, ?_, type2ColMarked_iff⟩
  · unfold dmrsMaskCount
    rw [hm]
    simp only [Option.map_some', Option.some.injEq]
    unfold maskCount
    have hset : (gridCells 10 n).filter
        (fun p => (List.contains [2] p.1 && dmrsColMarked DmrsType.Type2 (10 * 12) p.2) = true)
        = ({2} : Finset Nat) ×ˢ ((Finset.range 120).filter
            (fun c => type2ColMarked 120 c = true)) := by
      ext p
      obtain ⟨r, c⟩ := p
      simp only [gridCells, Finset.mem_filter, Finset.mem_product, Finset.mem_range,
        Finset.mem_singleton, Bool.and_eq_true, List.contains, List.elem_eq_mem, List.mem_singleton,
        decide_eq_true_eq, dmrsColMarked]
      constructor
      · rintro ⟨⟨hr, hc⟩, hr2, hcol⟩
        exact ⟨hr2, by simpa using hc, hcol⟩
      · rintro ⟨hr2, hc, hcol⟩
        exact ⟨⟨by omega, by simpa using hc⟩, hr2, hcol⟩
    rw [hset, Finset.card_product]
    decide
  · intro r c h
    unfold dmrsCellAt at h
    rw [hm] at h
    simp only [Option.map_some', Option.some.injEq, Bool.and_eq_true,
      List.contains, List.elem_eq_mem, List.mem_singleton, decide_eq_true_eq, dmrsColMarked] at h
    obtain ⟨hr, hcol⟩ := h
    have := (type2ColMarked_iff (10 * 12) c).mp hcol
    exact ⟨hr, this.1, by omega⟩
  · intro c hc hmod
    unfold dmrsCellAt
    rw [hm]
    simp only [Option.map_some', Option.some.injEq, Bool.and_eq_true,
      List.contains, List.elem_eq_mem, List.mem_singleton, decide_eq_true_eq, dmrsColMarked]
    exact ⟨trivial, (type2ColMarked_iff (10 * 12) c).mpr ⟨hmod, by omega⟩⟩

/-- C9 witness: the theorem applied at a 14-symbol grid. -/
theorem c9_witness :
    dmrsMaskCount 10 14 DmrsType.Type2 [2] = some 40
      ∧ dmrsCellAt 10 14 DmrsType.Type2 [2] 2 0 = some true := by
  have h := c9_type2_mask 14 (by decide)
  exact ⟨h.1, h.2.2.1 0 (by decide) (by decide)⟩

/-- C10: a negative DMRS symbol index i with -numSymbols ≤ i < 0 passes the
upper-bound check i < numSymbols and is not ignored: Python negative indexing
marks row numSymbols + i, so the Type1 pattern holds a true cell there. -/
theorem c10_negative_position_marks_tail (num_rbs num_symbols : Nat) (i : Int)
    (h1 : -(num_symbols : Int) ≤ i) (h2 : i < 0) :
    i < (num_symbols : Int)
      ∧ dmrsMarkRows num_symbols [i] = some [((num_symbols : Int) + i).toNat]
      ∧ dmrsCellAt num_rbs num_symbols DmrsType.Type1 [i]
          ((num_symbols : Int) + i).toNat 0 = some true := by
  have hlt : i < (num_symbols : Int) := by omega
  have hrow : pyRow num_symbols i = some ((num_symbols : Int) + i).toNat := by
    unfold pyRow
    rw [if_neg (by omega), if_pos (by omega)]
  have hmark : dmrsMarkRows num_symbols [i]
      = some [((num_symbols : Int) + i).toNat] := by
    simp [dmrsMarkRows, hlt, hrow]
  refine ⟨hlt, hmark, ?_⟩
  unfold dmrsCellAt create_dmrs_pattern
  rw [hmark]
  simp [dmrsColMarked, List.contains, List.elem_eq_mem]

/-- C10 witness: position -2 in a 14-symbol grid marks row 12. -/
theorem c10_witness :
    dmrsMarkRows 14 [(-2 : Int)] = some [12]
      ∧ dmrsCellAt 1 14 DmrsType.Type1 [(-2 : Int)] 12 0 = some true := by
  have h := c10_negative_position_marks_tail 1 14 (-2) (by norm_num) (by norm_num)
  exact ⟨h.2.1, h.2.2⟩

/-- Length of the built slot pattern: padding only ever extends it to the
period length. -/
theorem build_slot_pattern_length (a b c d n : Nat) :
    (build_slot_pattern a b c d n).length
      = max (a + (if 0 < b ∨ 0 < d then 1 else 0) + c) n := by
  unfold build_slot_pattern
  rw [padF_length]
  by_cases hc : 0 < b ∨ 0 < d <;> simp [hc] <;> omega

/-- Per-label symbol counts of the built (untruncated) pattern: D slots carry
14 DL symbols each, the X slot its configured split, F slots nothing. -/
theorem pattern_symbol_counts (dlSlots dlSym ulSlots ulSym n : Nat)
    (hlen : dlSlots + (if 0 < dlSym ∨ 0 < ulSym then 1 else 0) + ulSlots ≤ n) :
    (build_slot_pattern dlSlots dlSym ulSlots ulSym n).take n
        = build_slot_pattern dlSlots dlSym ulSlots ulSym n
      ∧ patternDlSymbols (build_slot_pattern dlSlots dlSym ulSlots ulSym n) dlSym
        = dlSlots * 14 + (if 0 < dlSym ∨ 0 < ulSym then dlSym else 0)
      ∧ patternUlSymbols (build_slot_pattern dlSlots dlSym ulSlots ulSym n) ulSym
        = ulSlots * 14 + (if 0 < dlSym ∨ 0 < ulSym then ulSym else 0)
      ∧ patternGuardSymbols (build_slot_pattern dlSlots dlSym ulSlots ulSym n) dlSym ulSym
        = (if 0 < dlSym ∨ 0 < ulSym then (14 : Int) - dlSym - ulSym else 0) := by
  refine ⟨?_, ?_, ?_, ?_⟩
  · apply List.take_of_length_le
    rw [build_slot_pattern_length]
    omega
  · unfold build_slot_pattern
    rw [padF_spec]
    by_cases hc : 0 < dlSym ∨ 0 < ulSym <;>
      simp [hc, patternDlSymbols, List.map_append, List.sum_append,
        List.map_replicate, List.sum_replicate, smul_eq_mul] <;>
      try omega
  · unfold build_slot_pattern
    rw [padF_spec]
    by_cases hc : 0 < dlSym ∨ 0 < ulSym <;>
      simp [hc, patternUlSymbols, List.map_append, List.sum_append,
        List.map_replicate, List.sum_replicate, smul_eq_mul] <;>
      try omega
  · unfold build_slot_pattern
    rw [padF_spec]
    by_cases hc : 0 < dlSym ∨ 0 < ulSym <;>
      simp [hc, patternGuardSymbols, List.map_append, List.sum_append,
        List.map_replicate, List.sum_replicate, smul_eq_mul] <;>
      try ring

/-- C8 (amended): when the configured slots fit the period, the reported DL
and UL percentages equal the pattern-derived ones, but the reported guard
percentage equals the pattern-derived guard percentage plus the full share of
the F padding slots (14 symbols each): F slots are counted as guard, not
excluded. -/
theorem c8_reported_vs_pattern (dlSlots dlSym ulSlots ulSym n : Nat)
    (hN : 0 < n)
    (hlen : dlSlots + (if 0 < dlSym ∨ 0 < ulSym then 1 else 0) + ulSlots ≤ n) :
    dl_pct dlSlots dlSym n
        = spec_dl_pct ((build_slot_pattern dlSlots dlSym ulSlots ulSym n).take n)
            dlSym n
      ∧ ul_pct ulSlots ulSym n
        = spec_ul_pct ((build_slot_pattern dlSlots dlSym ulSlots ulSym n).take n)
            ulSym n
      ∧ guard_pct dlSlots dlSym ulSlots ulSym n
        = spec_guard_pct ((build_slot_pattern dlSlots dlSym ulSlots ulSym n).take n)
            dlSym ulSym n
          + 100 * (14 * ((n : ℚ) - (dlSlots : ℚ)
              - (if 0 < dlSym ∨ 0 < ulSym then (1 : ℚ) else 0) - (ulSlots : ℚ)))
            / ((total_symbols n : Nat) : ℚ) := by
  obtain ⟨htake, hdl, hul, hg⟩ :=
    pattern_symbol_counts dlSlots dlSym ulSlots ulSym n hlen
  rw [htake]
  have hT : ((n * 14 : Nat) : ℚ) ≠ 0 := by
    have h14 : n * 14 ≠ 0 := by omega
    exact_mod_cast h14
  simp only [guard_pct, dl_pct, ul_pct, spec_dl_pct, spec_ul_pct, spec_guard_pct,
    total_dl_symbols, total_ul_symbols, total_symbols]
  rw [hdl, hul, hg]
  by_cases hc : 0 < dlSym ∨ 0 < ulSym
  · simp only [hc, if_true]
    refine ⟨by push_cast; try ring, by push_cast; try ring, ?_⟩
    field_simp
    push_cast
    ring
  · have hds : dlSym = 0 := by omega
    have hus : ulSym = 0 := by omega
    subst hds
    subst hus
    simp only [hc, if_false]
    refine ⟨by push_cast; try ring, by push_cast; try ring, ?_⟩
    field_simp
    push_cast
    ring

/-- C8 (counterexample): at periodicity 5 ms, slot duration 1 ms, one full DL
and one full UL slot and no partial symbols, the pattern is D U F F F; the
code reports a guard percentage of 60 while counting only the X-slot guard
split over the period gives 0, because the three F slots are folded into the
reported guard percentage. -/
theorem c8_counterexample :
    (slots_in_period 5 1).toNat = 5
      ∧ build_slot_pattern 1 0 1 0 5 = [Slot.D, Slot.U, Slot.F, Slot.F, Slot.F]
      ∧ guard_pct 1 0 1 0 5 = 60
      ∧ spec_guard_pct ((build_slot_pattern 1 0 1 0 5).take 5) 0 0 5 = 0
      ∧ guard_pct 1 0 1 0 5
        ≠ spec_guard_pct ((build_slot_pattern 1 0 1 0 5).take 5) 0 0 5 := by
  have h1 : slots_in_period 5 1 = 5 := by
    unfold slots_in_period pyInt
    norm_num
  have h3 : guard_pct 1 0 1 0 5 = 60 := by
    unfold guard_pct dl_pct ul_pct total_dl_symbols total_ul_symbols total_symbols
    norm_num
  have h4 : spec_guard_pct ((build_slot_pattern 1 0 1 0 5).take 5) 0 0 5 = 0 := by
    unfold spec_guard_pct
    norm_num [show patternGuardSymbols ((build_slot_pattern 1 0 1 0 5).take 5) 0 0
      = 0 from by decide]
  refine ⟨by rw [h1]; decide, by decide, h3, h4, ?_⟩
  rw [h3, h4]
  norm_num

/-- C8 witness: the amended theorem applied at the counterexample input. -/
theorem c8_witness :
    dl_pct 1 0 5 = spec_dl_pct ((build_slot_pattern 1 0 1 0 5).take 5) 0 5
      ∧ guard_pct 1 0 1 0 5
        = spec_guard_pct ((build_slot_pattern 1 0 1 0 5).take 5) 0 0 5
          + 100 * (14 * ((5 : ℚ) - (1 : ℚ)
              - (if 0 < 0 ∨ 0 < 0 then (1 : ℚ) else 0) - (1 : ℚ)))
            / ((total_symbols 5 : Nat) : ℚ) := by
  have h := c8_reported_vs_pattern 1 0 1 0 5 (by decide) (by decide)
  exact ⟨h.1, h.2.2⟩
